import Mathlib

/-!
Verification of `robosuite/scripts/collect_human_demonstrations.py`.

The development shallowly embeds the two cores of the script:

* the live-collection loop of `collect_human_trajectory` together with the
  background `EnvRunner` stepper (success-latch state machine, deadzone
  clamping, lock discipline over the shared action/tick state, and the
  stop/join/close cleanup sequence), and
* the offline aggregation pipeline `gather_demonstrations_as_hdf5`
  (per-episode chunk concatenation, the success filter, the
  state/action alignment trim with its assertion, and the metadata
  attributes of the exported container).

Python floats are modelled as rationals, numpy state snapshots and action
vectors as lists of rationals, and the hdf5 output file as an explicit
record of groups and optional attributes.
-/

set_option autoImplicit false

namespace CollectDemos

/-! ### Data model of the raw capture artifacts -/

/-- A flattened mujoco state snapshot (one entry of `dic["states"]`). -/
abbrev SimState := List Rat

/-- A control action vector. -/
abbrev ControlAction := List Rat

/-- An auxiliary pose sample (one entry of `dic["centric_obj_pose"]`). -/
abbrev PoseSample := List Rat

/-- One record of `dic["action_infos"]`: a record exposing an `actions`
field, as consumed by `actions.append(ai["actions"])`. -/
structure ActionInfo where
  actions : ControlAction
  deriving DecidableEq

/-- One raw chunk file `state_*.npz` of an episode directory, with the
fields the aggregator reads. -/
structure ChunkRecord where
  env : String
  states : List SimState
  action_infos : List ActionInfo
  centric_obj_pose : List PoseSample
  subtask_begin_index : List Int
  successful : Bool
  deriving DecidableEq

/-- One episode directory of the raw tree: its chunk files in sorted
filename order, plus the companion `model.xml` blob. -/
structure EpisodeDir where
  dirname : String
  chunks : List ChunkRecord
  model_xml : String
  deriving DecidableEq

/-- One `demo_{n}` group of the output container. -/
structure EpGroup where
  group_name : String
  model_file : String
  states : List SimState
  actions : List ControlAction
  centric_obj_pose : List PoseSample
  subtask_begin_index : List Int
  deriving DecidableEq

/-- The mutable state threaded through the episode loop of
`gather_demonstrations_as_hdf5`: the groups created so far in the open
file, the `num_eps` counter, and the `env_name` variable. -/
structure GatherState where
  groups : List EpGroup
  num_eps : Nat
  env_name : Option String
  deriving DecidableEq

/-- The `data` group of the output file: its child groups and its
optional top-level attributes (`none` = attribute never written). -/
structure DataGroup where
  episodes : List EpGroup
  date : Option String
  time : Option String
  repository_version : Option String
  env : Option String
  env_info : Option String
  deriving DecidableEq

/-- The wall-clock instant read by `datetime.datetime.now()`. -/
structure Timestamp where
  month : Nat
  day : Nat
  year : Nat
  hour : Nat
  minute : Nat
  second : Nat
  deriving DecidableEq

/-! ### The aggregator (`gather_demonstrations_as_hdf5`) -/

/-- The `states` list after the chunk loop: `states.extend(dic["states"])` over the
sorted chunk files. -/
def episodeStates (ep : EpisodeDir) : List SimState :=
  ep.chunks.foldl (fun acc c => acc ++ c.states) []

/-- The `actions` list after the chunk loop:
`for ai in dic["action_infos"]: actions.append(ai["actions"])`. -/
def episodeActions (ep : EpisodeDir) : List ControlAction :=
  ep.chunks.foldl (fun acc c => acc ++ c.action_infos.map (fun ai => ai.actions)) []

/-- The `centric_obj_pose` list after the chunk loop. -/
def episodePose (ep : EpisodeDir) : List PoseSample :=
  ep.chunks.foldl (fun acc c => acc ++ c.centric_obj_pose) []

/-- The `subtask_begin_index` list after the chunk loop. -/
def episodeSubtask (ep : EpisodeDir) : List Int :=
  ep.chunks.foldl (fun acc c => acc ++ c.subtask_begin_index) []

/-- The `success` variable after the chunk loop: initialized to `True`
at the top of the episode iteration and updated by
`success = success or dic["successful"]`. -/
def episodeSuccess (ep : EpisodeDir) : Bool :=
  ep.chunks.foldl (fun s c => s || c.successful) true

/-- The `env_name` variable after the chunk loop of one episode:
`env_name = str(dic["env"])` for every chunk file, so the last chunk
wins; an episode with no chunk files leaves it unchanged. -/
def episodeEnvName (init : Option String) (ep : EpisodeDir) : Option String :=
  ep.chunks.foldl (fun _ c => some c.env) init

/-- Derived episode-level success as the specification words it:
the logical OR of the success flags of the constituent chunk records.
This is the spec-side definition used to compare against the code's
`episodeSuccess`. -/
def specDerivedSuccess (ep : EpisodeDir) : Bool :=
  ep.chunks.any (fun c => c.successful)

/-- The body of the `for ep_directory in os.listdir(directory)` loop:
concatenate the chunk fields, skip the episode when the concatenated
state list is empty, filter on `success`, trim the trailing state, run
the `assert len(states) == len(actions)` check, and on success create
the `demo_{num_eps}` group. An assertion failure is the fatal
`Except.error`. -/
def processEpisode (st : GatherState) (ep : EpisodeDir) : Except String GatherState :=
  let envName := episodeEnvName st.env_name ep
  let states := episodeStates ep
  let actions := episodeActions ep
  if states.length = 0 then
    Except.ok { st with env_name := envName }
  else if episodeSuccess ep then
    let trimmed := states.dropLast
    if trimmed.length = actions.length then
      Except.ok
        { groups := st.groups ++
            [{ group_name := "demo_" ++ toString st.num_eps
               model_file := ep.model_xml
               states := trimmed
               actions := actions
               centric_obj_pose := episodePose ep
               subtask_begin_index := episodeSubtask ep }]
          num_eps := st.num_eps + 1
          env_name := envName }
    else
      Except.error "assert len(states) == len(actions)"
  else
    Except.ok { st with env_name := envName }

/-- The episode loop: runs `processEpisode` over the directory listing in
iteration order; an assertion failure aborts the loop, leaving the groups
created so far in the open file. -/
def runEpisodes : GatherState → List EpisodeDir → GatherState × Option String
  | st, [] => (st, none)
  | st, ep :: rest =>
    match processEpisode st ep with
    | Except.ok st' => runEpisodes st' rest
    | Except.error e => (st, some e)

/-- The date attribute string: month, day and year joined by dashes. -/
def fmtDate (now : Timestamp) : String :=
  toString now.month ++ "-" ++ toString now.day ++ "-" ++ toString now.year

/-- The time attribute string: hour, minute and second joined by colons. -/
def fmtTime (now : Timestamp) : String :=
  toString now.hour ++ ":" ++ toString now.minute ++ ":" ++ toString now.second

/-- The external `suite.__version__` constant of the run. -/
def suiteVersion : String := "1.4.1"

/-- The whole of `gather_demonstrations_as_hdf5`: the
episode loop followed, on normal completion, by the metadata attribute
writes. The returned pair is the content of the output file together
with the assertion failure, if one aborted the run: on abort the
attribute writes after the loop are never reached, so every attribute
stays unset while the groups already created remain in the
truncated-on-open file. -/
def gather_demonstrations_as_hdf5 (directory : List EpisodeDir) (env_info : String)
    (now : Timestamp) : DataGroup × Option String :=
  match runEpisodes { groups := [], num_eps := 0, env_name := none } directory with
  | (st, some e) =>
    ({ episodes := st.groups, date := none, time := none,
       repository_version := none, env := none, env_info := none }, some e)
  | (st, none) =>
    ({ episodes := st.groups, date := some (fmtDate now), time := some (fmtTime now),
       repository_version := some suiteVersion, env := st.env_name,
       env_info := some env_info }, none)

/-- All chunk records of the raw tree, in encounter order: episode
directories in listing order, chunk files in sorted order. -/
def allChunks : List EpisodeDir → List ChunkRecord
  | [] => []
  | ep :: rest => ep.chunks ++ allChunks rest

/-- The env name of the first chunk record encountered, as the claim
words it. -/
def firstChunkEnv (directory : List EpisodeDir) : Option String :=
  (allChunks directory).head?.map (fun c => c.env)

/-! ### The success-latch state machine of `collect_human_trajectory` -/

/-- One update of `task_completion_hold_count` from a fresh evaluation of
`env._check_success()`: on success, decrement a positive latched count,
otherwise latch to 10; on failure, reset to -1. -/
def latchStep (c : Int) (s : Bool) : Int :=
  if s then (if c > 0 then c - 1 else 10) else -1

/-- The foreground loop restricted to the latch: at each tick the loop
first breaks when the counter already equals 0 (before evaluating that
tick's predicate), otherwise applies `latchStep` to the tick's predicate
value. Returns the counter value after every processed tick and whether
the loop broke at `task_completion_hold_count == 0`. -/
def latchTrace (c : Int) : List Bool → List Int × Bool
  | [] => ([], false)
  | s :: rest =>
    if c = 0 then ([], true)
    else
      let c' := latchStep c s
      let r := latchTrace c' rest
      (c' :: r.1, r.2)

/-! ### Lock discipline over the shared action and tick counter -/

/-- The two threads of live collection. -/
inductive ThreadId where
  | controller
  | stepper
  deriving DecidableEq

/-- The two pieces of shared mutable state: `EnvRunner.action` and the
global `current_timestamps` tick counter. -/
inductive SharedVar where
  | actionSlot
  | tickCounter
  deriving DecidableEq

/-- Read or write. -/
inductive AccessKind where
  | readAccess
  | writeAccess
  deriving DecidableEq

/-- One source-level access to shared state, with the line it sits on and
whether it executes inside a `with self.lock` block. -/
structure SharedAccess where
  thread : ThreadId
  shared : SharedVar
  kind : AccessKind
  line : Nat
  underLock : Bool
  deriving DecidableEq

/-- Every access to the shared action and tick counter in `EnvRunner`
and `collect_human_trajectory`: the `set_action` write (line 44), the
stepper's read-and-apply of the action (lines 52-53) and increment of
the counter (line 54) — all inside `with self.lock` — and the
controller's timeout check, which reads the counter (line 129) and
resets it to zero (line 130) with no lock held. -/
def sharedAccesses : List SharedAccess :=
  [ { thread := ThreadId.controller, shared := SharedVar.actionSlot,
      kind := AccessKind.writeAccess, line := 44, underLock := true },
    { thread := ThreadId.stepper, shared := SharedVar.actionSlot,
      kind := AccessKind.readAccess, line := 52, underLock := true },
    { thread := ThreadId.stepper, shared := SharedVar.tickCounter,
      kind := AccessKind.writeAccess, line := 54, underLock := true },
    { thread := ThreadId.controller, shared := SharedVar.tickCounter,
      kind := AccessKind.readAccess, line := 129, underLock := false },
    { thread := ThreadId.controller, shared := SharedVar.tickCounter,
      kind := AccessKind.writeAccess, line := 130, underLock := false } ]

/-- Whether every listed access to the given variable runs under the
lock. -/
def allAccessesLocked (v : SharedVar) : Bool :=
  sharedAccesses.all (fun a => if a.shared = v then a.underLock else true)

/-- Whether every listed access by the given thread runs under the
lock. -/
def threadAccessesLocked (t : ThreadId) : Bool :=
  sharedAccesses.all (fun a => if a.thread = t then a.underLock else true)

/-! ### Cleanup order on the termination paths -/

/-- The ways `collect_human_trajectory`'s loop ends. -/
inductive TermCause where
  | deviceReset
  | latchSuccess
  | timeout
  | interrupt
  deriving DecidableEq

/-- The teardown actions appearing after the loop. -/
inductive CleanupEvent where
  | setStopEvent
  | joinStepper
  | closeEnv
  | reraiseInterrupt
  deriving DecidableEq

/-- Whether the cause is the external `KeyboardInterrupt`. -/
def isInterrupt : TermCause → Bool
  | TermCause.interrupt => true
  | _ => false

/-- The sequence of teardown actions executed for each termination
cause: the three `break` paths fall through to
`stop_event.set(); step_thread.join(); env.close()`, while the
`except KeyboardInterrupt` handler runs
`stop_event.set(); step_thread.join(); raise e` and never reaches
`env.close()`. -/
def cleanupTrace (c : TermCause) : List CleanupEvent :=
  if isInterrupt c then
    [CleanupEvent.setStopEvent, CleanupEvent.joinStepper, CleanupEvent.reraiseInterrupt]
  else
    [CleanupEvent.setStopEvent, CleanupEvent.joinStepper, CleanupEvent.closeEnv]

/-! ### Deadzone clamping -/

/-- The threshold vector of line 77: three zeros, then 0.1 three times. -/
def deadzone : List Rat := [0, 0, 0, 1/10, 1/10, 1/10]

/-- The clamp of lines 103-106: take `tmp_xyz = action[:6]`, zero every
component with `-deadzone < tmp_xyz < deadzone` (strict, componentwise),
and write the slice back, leaving components from index 6 on
untouched. -/
def applyDeadzone (action : ControlAction) : ControlAction :=
  (action.take 6).zipWith (fun x d => if -d < x ∧ x < d then 0 else x) deadzone
    ++ action.drop 6

/-! ### Concrete inputs used by witnesses and counterexamples -/

/-- A fixed wall-clock instant. -/
def ts0 : Timestamp :=
  { month := 10, day := 12, year := 2026, hour := 0, minute := 0, second := 0 }

/-- A second, different wall-clock instant. -/
def ts1 : Timestamp :=
  { month := 1, day := 2, year := 2027, hour := 3, minute := 4, second := 5 }

/-- An episode whose single chunk is marked unsuccessful: two recorded
states and one action, `successful = False`. -/
def epAllFalse : EpisodeDir :=
  { dirname := "ep_1728000000_0"
    chunks :=
      [ { env := "Lift", states := [[1], [2]],
          action_infos := [{ actions := [0, 0, 0, 0, 0, 0, 1] }],
          centric_obj_pose := [[0]], subtask_begin_index := [0],
          successful := false } ]
    model_xml := "<mujoco/>" }

/-- An episode split in two chunks whose recorded env names differ:
chunk one says `LiftA`, chunk two says `LiftB`. -/
def epTwoEnvs : EpisodeDir :=
  { dirname := "ep_1728000001_0"
    chunks :=
      [ { env := "LiftA", states := [[1], [2]],
          action_infos := [{ actions := [1] }],
          centric_obj_pose := [], subtask_begin_index := [],
          successful := true },
        { env := "LiftB", states := [],
          action_infos := [],
          centric_obj_pose := [], subtask_begin_index := [],
          successful := true } ]
    model_xml := "<mujoco/>" }

/-- A well-formed retained episode: two states, one action. -/
def epGood : EpisodeDir :=
  { dirname := "ep_1728000002_0"
    chunks :=
      [ { env := "Lift", states := [[1], [2]],
          action_infos := [{ actions := [5] }],
          centric_obj_pose := [[7]], subtask_begin_index := [0],
          successful := true } ]
    model_xml := "<mujoco/>" }

/-- A malformed episode: three states but only one action, so the
post-trim assertion fails. -/
def epBad : EpisodeDir :=
  { dirname := "ep_1728000003_0"
    chunks :=
      [ { env := "Lift", states := [[1], [2], [3]],
          action_infos := [{ actions := [5] }],
          centric_obj_pose := [], subtask_begin_index := [],
          successful := true } ]
    model_xml := "<mujoco/>" }

/-- An episode holding exactly one state and zero action records. -/
def epOneState : EpisodeDir :=
  { dirname := "ep_1728000004_0"
    chunks :=
      [ { env := "Lift", states := [[9]],
          action_infos := [],
          centric_obj_pose := [[1]], subtask_begin_index := [0],
          successful := true } ]
    model_xml := "<mujoco/>" }

/-! ### Helper lemmas -/

/-- The `success` accumulator of the chunk loop starts at `True`, so the
`or`-fold can never leave `true`. -/
theorem episodeSuccess_eq_true (ep : EpisodeDir) : episodeSuccess ep = true := by
  unfold episodeSuccess
  generalize ep.chunks = l
  induction l with
  | nil => rfl
  | cons c l ih => simpa using ih

/-- Folding the env-name update over a non-empty chunk list yields the
env of the last chunk, whatever the initial value. -/
theorem foldl_env_of_ne (l : List ChunkRecord) (h : l ≠ []) :
    ∀ init : Option String,
      l.foldl (fun _ c => some c.env) init = some ((l.getLast h).env) := by
  induction l with
  | nil => exact absurd rfl h
  | cons c l ih =>
    intro init
    cases l with
    | nil => rfl
    | cons d l' =>
      rw [List.foldl_cons, ih (List.cons_ne_nil d l') (some c.env)]
      rw [List.getLast_cons (List.cons_ne_nil d l')]

/-- A successful `processEpisode` updates `env_name` exactly by the
episode's chunk loop. -/
theorem processEpisode_env (st st' : GatherState) (ep : EpisodeDir)
    (h : processEpisode st ep = Except.ok st') :
    st'.env_name = episodeEnvName st.env_name ep := by
  unfold processEpisode at h
  dsimp only at h
  split at h
  · injection h with h
    subst h
    rfl
  · split at h
    · split at h
      · injection h with h
        subst h
        rfl
      · exact Except.noConfusion h
    · injection h with h
      subst h
      rfl

/-- A run of the episode loop that completes without the assertion error
leaves `env_name` equal to the env-name fold over all chunk records in
encounter order. -/
theorem runEpisodes_env (directory : List EpisodeDir) :
    ∀ st st' : GatherState, runEpisodes st directory = (st', none) →
      st'.env_name = (allChunks directory).foldl (fun _ c => some c.env) st.env_name := by
  induction directory with
  | nil =>
    intro st st' h
    simp only [runEpisodes] at h
    injection h with h1 h2
    subst h1
    rfl
  | cons ep rest ih =>
    intro st st' h
    simp only [runEpisodes] at h
    cases he : processEpisode st ep with
    | ok s =>
      rw [he] at h
      have h1 := ih s st' h
      rw [h1, processEpisode_env st s ep he]
      simp only [allChunks, List.foldl_append]
      rfl
    | error e =>
      rw [he] at h
      injection h with h1 h2
      exact Option.noConfusion h2

/-! ### Claim theorems -/

/-- C1 evaluation: the episode `epAllFalse` has derived success (logical
OR of its chunk flags) false, yet `gather_demonstrations_as_hdf5` keeps
it: the run completes without error and emits the group `demo_0` for it,
because the code's `success` accumulator is initialized to `True` and so
is identically `true`. -/
theorem success_filter_retains_unsuccessful_episode :
    specDerivedSuccess epAllFalse = false ∧
    episodeSuccess epAllFalse = true ∧
    (gather_demonstrations_as_hdf5 [epAllFalse] "cfg" ts0).2 = none ∧
    ((gather_demonstrations_as_hdf5 [epAllFalse] "cfg" ts0).1.episodes.map
      (fun g => g.group_name)) = ["demo_0"] := by
  refine ⟨rfl, rfl, rfl, rfl⟩

/-- C2 counterexample: with the latch counter started at -1, success on
ticks 1..10 and failure on tick 11 produce the counter trace
`[10, 9, 8, 7, 6, 5, 4, 3, 2, 1, -1]` with no successful termination:
the counter never reaches 0 during the ten success ticks, so ten
consecutive successful predicate evaluations do not suffice. -/
theorem latch_ten_successes_insufficient :
    latchTrace (-1) (List.replicate 10 true ++ [false]) =
      ([10, 9, 8, 7, 6, 5, 4, 3, 2, 1, -1], false) ∧
    (latchTrace (-1) (List.replicate 10 true ++ [false])).2 ≠ true ∧
    ¬ (0 : Int) ∈ (latchTrace (-1) (List.replicate 10 true ++ [false])).1 := by
  refine ⟨by decide, by decide, by decide⟩

/-- C2 amended: eleven consecutive successful evaluations drive the
counter through `10, 9, ..., 0`, and the loop then terminates
successfully at the start of the next tick, before that tick's predicate
value (arbitrary here) is consulted. -/
theorem latch_eleven_successes_terminate :
    ∀ b : Bool, latchTrace (-1) (List.replicate 11 true ++ [b]) =
      ([10, 9, 8, 7, 6, 5, 4, 3, 2, 1, 0], true) := by
  decide

/-- C4 counterexample: not every access to the tick counter runs under
the lock — the controller's timeout check reads it (line 129) and resets
it (line 130) with no lock held. -/
theorem tick_counter_access_outside_lock :
    allAccessesLocked SharedVar.tickCounter = false ∧
    ((sharedAccesses.filter
        (fun a => if a.shared = SharedVar.tickCounter then !a.underLock else false)).map
      (fun a => a.line)) = [129, 130] := by
  refine ⟨by decide, by decide⟩

/-- C4 amended: every access to the shared action slot is under the
lock, and so is every access performed by the background stepper (its
action read-and-apply and its tick increment form one critical section);
but the tick counter is also accessed by the controller outside the
lock, so tick-counter accesses are not all serialized by it. -/
theorem lock_discipline_actual :
    allAccessesLocked SharedVar.actionSlot = true ∧
    threadAccessesLocked ThreadId.stepper = true ∧
    allAccessesLocked SharedVar.tickCounter = false := by
  refine ⟨by decide, by decide, by decide⟩

/-- C5 counterexample: on the external-interrupt path the teardown trace
is stop, join, re-raise — the simulation resource is never released
(`closeEnv` does not occur), so the claimed stop/join/close order does
not hold on every termination path. -/
theorem interrupt_path_skips_close :
    cleanupTrace TermCause.interrupt ≠
      [CleanupEvent.setStopEvent, CleanupEvent.joinStepper, CleanupEvent.closeEnv] ∧
    ¬ CleanupEvent.closeEnv ∈ cleanupTrace TermCause.interrupt := by
  refine ⟨by decide, by decide⟩

/-- C5 amended: on every termination cause the controller first signals
the stepper to stop and then joins it; the three in-loop break paths
then close the simulation, while the interrupt path re-raises without
closing. In particular no path performs any teardown before the join. -/
theorem cleanup_order_all_paths (c : TermCause) :
    cleanupTrace c =
      [CleanupEvent.setStopEvent, CleanupEvent.joinStepper,
        if isInterrupt c then CleanupEvent.reraiseInterrupt else CleanupEvent.closeEnv] := by
  cases c <;> rfl

/-- C7 counterexample: a run over a well-formed episode followed by a
malformed one aborts with the assertion error, yet the output file
already contains the group `demo_0` created for the first episode — the
abort is not all-or-nothing. -/
theorem partial_groups_on_abort :
    (gather_demonstrations_as_hdf5 [epGood, epBad] "cfg" ts0).2 =
      some "assert len(states) == len(actions)" ∧
    ((gather_demonstrations_as_hdf5 [epGood, epBad] "cfg" ts0).1.episodes.map
      (fun g => g.group_name)) = ["demo_0"] := by
  refine ⟨rfl, rfl⟩

/-- C8: aggregation plus export is deterministic modulo the wall-clock
instant — two runs over the same directory listing with the same
`env_info` produce the same episode groups, the same version, env and
env_info attributes, and the same error outcome; only the date and time
attributes can differ. -/
theorem gather_idempotent_modulo_timestamps (directory : List EpisodeDir)
    (env_info : String) (t1 t2 : Timestamp) :
    (gather_demonstrations_as_hdf5 directory env_info t1).1.episodes =
      (gather_demonstrations_as_hdf5 directory env_info t2).1.episodes ∧
    (gather_demonstrations_as_hdf5 directory env_info t1).1.repository_version =
      (gather_demonstrations_as_hdf5 directory env_info t2).1.repository_version ∧
    (gather_demonstrations_as_hdf5 directory env_info t1).1.env =
      (gather_demonstrations_as_hdf5 directory env_info t2).1.env ∧
    (gather_demonstrations_as_hdf5 directory env_info t1).1.env_info =
      (gather_demonstrations_as_hdf5 directory env_info t2).1.env_info ∧
    (gather_demonstrations_as_hdf5 directory env_info t1).2 =
      (gather_demonstrations_as_hdf5 directory env_info t2).2 := by
  unfold gather_demonstrations_as_hdf5
  rcases hr : runEpisodes { groups := [], num_eps := 0, env_name := none } directory
    with ⟨st, err⟩
  cases err <;> simp

/-- C10: an episode holding exactly one state and zero action records is
not skipped: the run succeeds and emits a group whose `states` and
`actions` datasets are both empty, the pre-trim state count being 1 and
the action count 0. -/
theorem single_state_episode_emits_empty_group :
    (gather_demonstrations_as_hdf5 [epOneState] "cfg" ts0).2 = none ∧
    ((gather_demonstrations_as_hdf5 [epOneState] "cfg" ts0).1.episodes.map
      (fun g => (g.group_name, g.states, g.actions))) = [("demo_0", [], [])] ∧
    (episodeStates epOneState).length = 1 ∧
    episodeActions epOneState = [] := by
  refine ⟨rfl, rfl, rfl, rfl⟩

/-- C3 counterexample: for the single-episode directory `[epTwoEnvs]`,
whose first chunk records env `LiftA` and second chunk `LiftB`, the run
succeeds and writes env attribute `LiftB` — not the env of the first
encountered chunk record. -/
theorem env_attr_not_first_chunk :
    firstChunkEnv [epTwoEnvs] = some "LiftA" ∧
    (gather_demonstrations_as_hdf5 [epTwoEnvs] "cfg" ts0).2 = none ∧
    (gather_demonstrations_as_hdf5 [epTwoEnvs] "cfg" ts0).1.env = some "LiftB" ∧
    (gather_demonstrations_as_hdf5 [epTwoEnvs] "cfg" ts0).1.env ≠
      firstChunkEnv [epTwoEnvs] := by
  refine ⟨rfl, rfl, rfl, by decide⟩

/-- C3 amended: whenever the run completes without the assertion error
and the raw tree contains at least one chunk record, the exported `env`
attribute equals the environment name recorded in the LAST chunk record
encountered (last chunk file, in sorted order, of the last episode
directory iterated that has chunk files) — `env_name` is overwritten by
every chunk file. -/
theorem env_attr_eq_last_chunk (directory : List EpisodeDir) (env_info : String)
    (now : Timestamp)
    (hok : (gather_demonstrations_as_hdf5 directory env_info now).2 = none)
    (hne : allChunks directory ≠ []) :
    (gather_demonstrations_as_hdf5 directory env_info now).1.env =
      some (((allChunks directory).getLast hne).env) := by
  unfold gather_demonstrations_as_hdf5 at hok ⊢
  rcases hr : runEpisodes { groups := [], num_eps := 0, env_name := none } directory
    with ⟨st, err⟩
  cases err with
  | some e =>
    rw [hr] at hok
    exact Option.noConfusion hok
  | none =>
    have henv := runEpisodes_env directory _ _ hr
    show st.env_name = some (((allChunks directory).getLast hne).env)
    rw [henv, foldl_env_of_ne (allChunks directory) hne none]

/-- Witness for the amended C3 theorem at the concrete directory
`[epTwoEnvs]`. -/
theorem env_attr_eq_last_chunk_witness :
    (gather_demonstrations_as_hdf5 [epTwoEnvs] "cfg" ts0).2 = none ∧
    allChunks [epTwoEnvs] ≠ [] ∧
    (gather_demonstrations_as_hdf5 [epTwoEnvs] "cfg" ts0).1.env =
      some (((allChunks [epTwoEnvs]).getLast (by decide)).env) :=
  ⟨by decide, by decide,
    env_attr_eq_last_chunk [epTwoEnvs] "cfg" ts0 (by decide) (by decide)⟩

/-- C7 amended: when the post-trim assertion aborts a run, the attribute
writes after the episode loop are never reached, so the output file
carries no metadata at all — no date, time, version, env or env_info
attribute — while the episode groups created before the failure remain
in the truncated-on-open file (so the abort is not all-or-nothing over
groups). -/
theorem no_metadata_on_abort (directory : List EpisodeDir) (env_info : String)
    (now : Timestamp) (e : String)
    (h : (gather_demonstrations_as_hdf5 directory env_info now).2 = some e) :
    (gather_demonstrations_as_hdf5 directory env_info now).1.date = none ∧
    (gather_demonstrations_as_hdf5 directory env_info now).1.time = none ∧
    (gather_demonstrations_as_hdf5 directory env_info now).1.repository_version = none ∧
    (gather_demonstrations_as_hdf5 directory env_info now).1.env = none ∧
    (gather_demonstrations_as_hdf5 directory env_info now).1.env_info = none := by
  unfold gather_demonstrations_as_hdf5 at h ⊢
  rcases hr : runEpisodes { groups := [], num_eps := 0, env_name := none } directory
    with ⟨st, err⟩
  cases err with
  | some e => exact ⟨rfl, rfl, rfl, rfl, rfl⟩
  | none =>
    rw [hr] at h
    exact Option.noConfusion h

/-- Witness for the amended C7 theorem at the concrete directory
`[epBad]`. -/
theorem no_metadata_on_abort_witness :
    (gather_demonstrations_as_hdf5 [epBad] "cfg" ts0).2 =
      some "assert len(states) == len(actions)" ∧
    ((gather_demonstrations_as_hdf5 [epBad] "cfg" ts0).1.date = none ∧
     (gather_demonstrations_as_hdf5 [epBad] "cfg" ts0).1.time = none ∧
     (gather_demonstrations_as_hdf5 [epBad] "cfg" ts0).1.repository_version = none ∧
     (gather_demonstrations_as_hdf5 [epBad] "cfg" ts0).1.env = none ∧
     (gather_demonstrations_as_hdf5 [epBad] "cfg" ts0).1.env_info = none) :=
  ⟨rfl, no_metadata_on_abort [epBad] "cfg" ts0
    "assert len(states) == len(actions)" rfl⟩

/-- C6: for a non-empty episode (the code's `success` flag is
identically true, so every non-empty episode is retained), the
aggregator removes exactly the last element of the concatenated state
sequence; when the pre-trim lengths satisfy
`len(states) = len(actions) + 1` the group is created with equal
post-trim lengths, and for any other pre-trim relationship the
post-trim assertion raises the fatal error. -/
theorem trim_and_assert (st : GatherState) (ep : EpisodeDir)
    (h : episodeStates ep ≠ []) :
    ((episodeStates ep).length = (episodeActions ep).length + 1 →
      ∃ st' : GatherState, processEpisode st ep = Except.ok st' ∧
        st'.num_eps = st.num_eps + 1 ∧
        ∃ g : EpGroup, st'.groups = st.groups ++ [g] ∧
          g.actions = episodeActions ep ∧
          g.states = (episodeStates ep).dropLast ∧
          g.states.length = g.actions.length ∧
          g.states ++ [(episodeStates ep).getLast h] = episodeStates ep) ∧
    ((episodeStates ep).length ≠ (episodeActions ep).length + 1 →
      processEpisode st ep = Except.error "assert len(states) == len(actions)") := by
  have hlen0 : ¬ (episodeStates ep).length = 0 := by
    simpa [List.length_eq_zero] using h
  have hsucc := episodeSuccess_eq_true ep
  constructor
  · intro h1
    have htrim : (episodeStates ep).dropLast.length = (episodeActions ep).length := by
      rw [List.length_dropLast, h1]
      omega
    have hres : processEpisode st ep = Except.ok
        { groups := st.groups ++
            [{ group_name := "demo_" ++ toString st.num_eps
               model_file := ep.model_xml
               states := (episodeStates ep).dropLast
               actions := episodeActions ep
               centric_obj_pose := episodePose ep
               subtask_begin_index := episodeSubtask ep }]
          num_eps := st.num_eps + 1
          env_name := episodeEnvName st.env_name ep } := by
      unfold processEpisode
      dsimp only
      rw [if_neg hlen0, hsucc, if_pos rfl, if_pos htrim]
    refine ⟨_, hres, rfl, _, rfl, rfl, rfl, htrim, ?_⟩
    exact List.dropLast_append_getLast h
  · intro h1
    have htrim : ¬ (episodeStates ep).dropLast.length = (episodeActions ep).length := by
      rw [List.length_dropLast]
      omega
    unfold processEpisode
    dsimp only
    rw [if_neg hlen0, hsucc, if_pos rfl, if_neg htrim]

/-- Witness for the C6 theorem at the initial gather state and the
concrete episode `epGood` (two states, one action). -/
theorem trim_and_assert_witness :
    episodeStates epGood ≠ [] ∧
    (((episodeStates epGood).length = (episodeActions epGood).length + 1 →
      ∃ st' : GatherState,
        processEpisode { groups := [], num_eps := 0, env_name := none } epGood =
          Except.ok st' ∧
        st'.num_eps = 0 + 1 ∧
        ∃ g : EpGroup, st'.groups = [] ++ [g] ∧
          g.actions = episodeActions epGood ∧
          g.states = (episodeStates epGood).dropLast ∧
          g.states.length = g.actions.length ∧
          g.states ++ [(episodeStates epGood).getLast (by decide)] =
            episodeStates epGood) ∧
    ((episodeStates epGood).length ≠ (episodeActions epGood).length + 1 →
      processEpisode { groups := [], num_eps := 0, env_name := none } epGood =
        Except.error "assert len(states) == len(actions)")) :=
  ⟨by decide,
    trim_and_assert { groups := [], num_eps := 0, env_name := none } epGood (by decide)⟩

/-- Componentwise description of the slice-and-clamp: the element at
index `i` of the clamped vector is zero exactly when `i` falls in the
clamped prefix and the element lies strictly inside the componentwise
deadzone band, and is the original element otherwise. Stated for an
arbitrary threshold vector `d` taking the role of `deadzone`. -/
theorem clampZip_getD (d : List Rat) :
    ∀ (a : List Rat) (i : Nat),
      (((a.take d.length).zipWith (fun x t => if -t < x ∧ x < t then 0 else x) d)
          ++ a.drop d.length).getD i 0 =
        if i < d.length ∧ -(d.getD i 0) < a.getD i 0 ∧ a.getD i 0 < d.getD i 0 then 0
        else a.getD i 0 := by
  induction d with
  | nil =>
    intro a i
    simp
  | cons t ds ih =>
    intro a i
    cases a with
    | nil =>
      simp only [List.take_nil, List.zipWith_nil_left, List.drop_nil, List.nil_append]
      split <;> simp
    | cons x xs =>
      cases i with
      | zero =>
        simp [List.take_succ_cons, List.drop_succ_cons]
      | succ j =>
        simp only [List.length_cons, List.take_succ_cons, List.zipWith_cons_cons,
          List.drop_succ_cons, List.cons_append, List.getD_cons_succ]
        rw [ih xs j]
        simp [Nat.succ_lt_succ_iff]

/-- C9: `applyDeadzone` preserves the length of the action vector and,
componentwise, zeroes exactly those components among the first 6 whose
absolute value is strictly below the deadzone threshold for that
component (0 for the first three components, 1/10 for the next three),
leaving every other component unchanged. This is the transformation
applied to every non-null derived action before it is pushed to the
shared slot via `set_action`. -/
theorem deadzone_componentwise (a : ControlAction) :
    (applyDeadzone a).length = a.length ∧
    ∀ i : Nat, (applyDeadzone a).getD i 0 =
      if i < 6 ∧ |a.getD i 0| < deadzone.getD i 0 then 0 else a.getD i 0 := by
  constructor
  · unfold applyDeadzone
    rw [List.length_append, List.length_zipWith, List.length_take]
    have h6 : deadzone.length = 6 := rfl
    rw [h6, List.length_drop]
    omega
  · intro i
    have h := clampZip_getD deadzone a i
    have h6 : deadzone.length = 6 := rfl
    rw [h6] at h
    unfold applyDeadzone
    rw [h]
    simp [abs_lt]

end CollectDemos
